import Mathlib

set_option maxRecDepth 4000

/-!
Shallow embedding of the plugin `main.py` of `astrbot_plugin_meting`
(class `MetingPlugin`): the URL validator, the download routine, the
URL-pattern recognizer of `handle_url_parse`, the session store used by
`search_song` / `handle_selection`, and the numeric-selection handler.
Handlers are modelled as pure functions from their inputs and the session
map to the ordered trace of their observable actions (session deletions
and `yield`ed outputs) and the resulting session map.
-/

namespace Meting

/-! ### Python string helpers -/

/-- `msg.isdigit()` for ASCII decimal strings: non-empty and all digits.
(Python also accepts some non-ASCII digit characters; the repository only
ever feeds chat text where ASCII is the relevant case.) -/
def pyIsDigit (s : String) : Bool :=
  decide (s.data ≠ []) && s.data.all Char.isDigit

/-- `int(msg)` for a string of ASCII digits (leading zeros allowed). -/
def strToNat (s : String) : Nat :=
  s.data.foldl (fun a c => a * 10 + (c.toNat - 48)) 0

/-- Python truthiness of an optional string: `None` and `""` are falsy. -/
def truthy : Option String → Option String
  | some s => if s = "" then none else some s
  | none => none

/-- `a or b or default` over two optional strings, as in
`s.get("title") or s.get("name") or "未知"`. -/
def pyOr2 (a b : Option String) (d : String) : String :=
  match truthy a with
  | some s => s
  | none =>
    match truthy b with
    | some s => s
    | none => d

/-- Whether `pat` occurs as a contiguous sublist of `l` (Python `pat in s`). -/
def subList (pat : List Char) : List Char → Bool
  | [] => pat.isEmpty
  | c :: cs => pat.isPrefixOf (c :: cs) || subList pat cs

/-- Python `pat in s` substring test on strings. -/
def strContains (s pat : String) : Bool :=
  subList pat.data s.data

/-- `s.startswith(p)` (computed on the underlying character lists, which
the kernel can evaluate). -/
def strStartsWith (s p : String) : Bool :=
  p.data.isPrefixOf s.data

/-! ### `_validate_url` (main.py lines 77-83) -/

/-- The denylist literals of `_validate_url` (line 80). -/
def black_list : List String :=
  ["127.0.0.1", "localhost", "192.168.", "10.", "172."]

/-- `MetingPlugin._validate_url` (lines 77-83): reject when the URL is
falsy or lacks an `http://`/`https://` scheme; reject when ANY denylist
literal occurs as a substring of the WHOLE url (`b in url`); else accept. -/
def validate_url (url : String) : Bool × String :=
  if url = "" ∨ ¬(strStartsWith url "http://" ∨ strStartsWith url "https://") then
    (false, "无效协议")
  else if black_list.any (fun b => strContains url b) then
    (false, "受限内网地址")
  else
    (true, "")

/-- Modelled from the spec: the host component of a URL, the text between
the scheme separator and the next `/`. Used only to compare the spec's
host-based denylist reading against the code's substring check. -/
def spec_urlHost (u : String) : String :=
  let rest :=
    if strStartsWith u "http://" then u.data.drop 7
    else if strStartsWith u "https://" then u.data.drop 8
    else u.data
  String.mk (rest.takeWhile (fun c => c ≠ '/'))

/-- Modelled from the spec: "its host matches a denylist of
loopback/private-network literals (`127.0.0.1`, `localhost`, `192.168.`,
`10.` and `172.` prefixes)". -/
def spec_hostOnDenylist (h : String) : Bool :=
  (h == "127.0.0.1") || (h == "localhost") ||
  strStartsWith h "192.168." || strStartsWith h "10." || strStartsWith h "172."

/-! ### `_download_song` (main.py lines 86-130) -/

/-- An HTTP response as seen by `_download_song` through the aiohttp
session: status code, the optional numeric `Content-Length` header, the
`Content-Type` header, and the stream of chunks that
`resp.content.read(CHUNK_SIZE)` would deliver in order: `some n` is a
chunk of `n` bytes and `none` is a transport error (network error or
timeout) raised by that read; the end of the list is end-of-stream. -/
structure HttpResponse where
  status : Nat
  contentLength : Option Nat
  contentType : String
  body : List (Option Nat)
deriving DecidableEq

/-- Suffix inference of `_download_song` (lines 109-117), driven by the
lowercased `Content-Type` header. -/
def inferSuffix (ctype0 : String) : String :=
  let ctype := String.mk (ctype0.data.map Char.toLower)
  if strContains ctype "flac" then ".flac"
  else if strContains ctype "m4a" || strContains ctype "mp4" || strContains ctype "x-m4a" then ".m4a"
  else if strContains ctype "wav" then ".wav"
  else ".mp3"

/-- The read/write loop of `_download_song` (lines 122-126): returns the
bytes written to the temp file and whether the loop reached a clean end.
A `some 0` chunk is a falsy read (`if not chunk: break`) ending the loop
cleanly; a `none` item is an exception raised mid-stream, aborting the
loop (the bytes already written stay in the file). -/
def writeChunks : List (Option Nat) → Nat × Bool
  | [] => (0, true)
  | some 0 :: _ => (0, true)
  | some (n + 1) :: rest =>
    let p := writeChunks rest
    (n + 1 + p.1, p.2)
  | none :: _ => (0, false)

/-- The observable outcome of one `_download_song` call: whether the
function returns the temp-file path (vs `None`), whether the GET was
issued, whether `tempfile.mkstemp` ran, the chosen suffix, the bytes
written into the temp file, and whether any code path of the call removed
that file again (the source has no `os.remove` in `_download_song`, so
this is `false` on every path; it is recorded so that "no partial file is
left behind" is expressible). -/
structure DlResult where
  success : Bool
  netRequest : Bool
  fileCreated : Bool
  suffix : String
  bytesWritten : Nat
  fileDeleted : Bool
deriving DecidableEq

/-- `MetingPlugin._download_song` (lines 86-130) for a given
`max_file_size` config value (MiB, `_get_config("max_file_size", 50)`).
`resp = none` models `session.get` itself raising (connection error or
timeout before a response), caught by the outer `except` → `None`.
A non-numeric `Content-Length` header (a `ValueError` from `int`, also
caught before any file is created) is not represented; absence of the
header is `contentLength = none`, read as `0` via the `.get` default. -/
def download_song (max_file_size : Nat) (url : String) (resp : Option HttpResponse) : DlResult :=
  if ¬(validate_url url).1 then
    ⟨false, false, false, "", 0, false⟩
  else
    match resp with
    | none => ⟨false, true, false, "", 0, false⟩
    | some r =>
      if r.status ≠ 200 then ⟨false, true, false, "", 0, false⟩
      else
        let size_limit := max_file_size * 1024 * 1024
        let content_len := r.contentLength.getD 0
        if content_len > size_limit ∨ content_len = 0 then
          ⟨false, true, false, "", 0, false⟩
        else
          let w := writeChunks r.body
          ⟨w.2, true, true, inferSuffix r.contentType, w.1, false⟩

/-- Total size of the data chunks a response stream delivers. -/
def chunkSum : List (Option Nat) → Nat
  | [] => 0
  | some n :: rest => n + chunkSum rest
  | none :: rest => chunkSum rest

theorem writeChunks_le_chunkSum (l : List (Option Nat)) :
    (writeChunks l).1 ≤ chunkSum l := by
  induction l with
  | nil => simp [writeChunks, chunkSum]
  | cons h t ih =>
    match h with
    | none => simp [writeChunks, chunkSum]
    | some 0 => simp [writeChunks, chunkSum]
    | some (n + 1) =>
      simp only [writeChunks, chunkSum]
      omega

/-! ### Session store and `handle_selection` (main.py lines 29, 233-274) -/

/-- `SESSION_EXPIRY = 60` (line 16). Timestamps are modelled as integers
(`time.time()` floats enter only through the comparison `now - ts > 60`,
whose structure is preserved). -/
def SESSION_EXPIRY : Int := 60

/-- A song dict as consumed by this plugin: the keys it reads. -/
structure Song where
  title : Option String := none
  name : Option String := none
  author : Option String := none
  artist : Option String := none
  url : Option String := none
  download_url : Option String := none
deriving DecidableEq

/-- One entry of `self._sessions`: `{"results": [...], "timestamp": t}`
(lines 29 and 235-238). -/
structure SessionData where
  results : List Song
  timestamp : Int
deriving DecidableEq

/-- The `self._sessions` dict, keyed by `event.unified_msg_origin`. -/
def SStore := String → Option SessionData

/-- `self._sessions[cid] = {"results": results, "timestamp": now}`
(lines 235-238): unconditional overwrite. -/
def storeSession (st : SStore) (cid : String) (results : List Song) (now : Int) : SStore :=
  fun k => if k = cid then some ⟨results, now⟩ else st k

/-- `del self._sessions[cid]` (lines 264 and 272). -/
def delStore (st : SStore) (cid : String) : SStore :=
  fun k => if k = cid then none else st k

/-- The numbered result lines built by `search_song` (lines 241-245):
one line per entry of `results[:max_show]`. -/
def displayLines (results : List Song) (max_show : Nat) : List String :=
  (results.take max_show).enum.map fun p =>
    toString (p.1 + 1) ++ ". " ++ pyOr2 p.2.title p.2.name "未知" ++ " - " ++
      pyOr2 p.2.author p.2.artist "未知"

/-- The text yielded on an expired session (line 265). -/
def expiredNotice : String := "⌛ 搜索会话已过期，请重新点歌"

/-- One observable action of `handle_selection`, in program order: a
deletion from `self._sessions`, a `yield plain_result(text)` notice, or
the hand-off of one record to `_play_song_logic`. -/
inductive Ev where
  | deleteSession (cid : String)
  | notice (text : String)
  | playback (song : Song)
deriving DecidableEq

/-- `MetingPlugin.handle_selection` (lines 251-274) on the stripped
message text: ignore non-digit messages; silently ignore a missing
session; on an expired session delete it and notify; on an in-range
1-based index (`idx = int(msg) - 1`, `0 <= idx < len(results)`) delete
the session and play `results[idx]`; otherwise fall through silently.
Returns the action trace and the resulting session map. -/
def handle_selection (st : SStore) (now : Int) (cid msg : String) : List Ev × SStore :=
  if pyIsDigit msg then
    match st cid with
    | none => ([], st)
    | some sd =>
      if now - sd.timestamp > SESSION_EXPIRY then
        ([Ev.deleteSession cid, Ev.notice expiredNotice], delStore st cid)
      else
        if h : 0 ≤ (strToNat msg : Int) - 1 ∧ (strToNat msg : Int) - 1 < (sd.results.length : Int) then
          ([Ev.deleteSession cid,
            Ev.playback (sd.results.get ⟨((strToNat msg : Int) - 1).toNat, by omega⟩)],
           delStore st cid)
        else ([], st)
  else ([], st)

theorem delStore_self (st : SStore) (cid : String) : delStore st cid cid = none := by
  simp [delStore]

/-- In-range selection on a live session: the session entry is deleted
first, then exactly `results[int(msg) - 1]` is handed to playback. -/
theorem handle_selection_in_range (st : SStore) (now : Int) (cid msg : String)
    (sd : SessionData) (n : Nat)
    (hs : st cid = some sd) (hd : pyIsDigit msg = true) (hv : strToNat msg = n)
    (hfresh : now - sd.timestamp ≤ SESSION_EXPIRY)
    (h1 : 1 ≤ n) (h2 : n ≤ sd.results.length) :
    ∃ song, sd.results.get? (n - 1) = some song ∧
      handle_selection st now cid msg =
        ([Ev.deleteSession cid, Ev.playback song], delStore st cid) := by
  have hlt : n - 1 < sd.results.length := by omega
  refine ⟨sd.results.get ⟨n - 1, hlt⟩, List.get?_eq_get hlt, ?_⟩
  unfold handle_selection
  rw [hd, hs]
  simp only [if_true]
  rw [if_neg (by omega)]
  rw [dif_pos (by constructor <;> [omega; (rw [hv]; omega)])]
  have : ((strToNat msg : Int) - 1).toNat = n - 1 := by omega
  simp [this]

/-- A numeric message against a live session whose index is out of range
(`idx < 0` or `idx >= len(results)`) changes nothing and yields nothing. -/
theorem handle_selection_out_of_range (st : SStore) (now : Int) (cid msg : String)
    (sd : SessionData) (hs : st cid = some sd) (hd : pyIsDigit msg = true)
    (hfresh : now - sd.timestamp ≤ SESSION_EXPIRY)
    (hout : ¬(1 ≤ strToNat msg ∧ strToNat msg ≤ sd.results.length)) :
    handle_selection st now cid msg = ([], st) := by
  unfold handle_selection
  rw [hd, hs]
  simp only [if_true]
  rw [if_neg (by omega)]
  rw [dif_neg (by omega)]

/-- A numeric message against an expired session deletes the session and
yields only the expiry notice, whatever the index. -/
theorem handle_selection_expired (st : SStore) (now : Int) (cid msg : String)
    (sd : SessionData) (hs : st cid = some sd) (hd : pyIsDigit msg = true)
    (hold : now - sd.timestamp > SESSION_EXPIRY) :
    handle_selection st now cid msg =
      ([Ev.deleteSession cid, Ev.notice expiredNotice], delStore st cid) := by
  unfold handle_selection
  rw [hd, hs]
  simp only [if_true]
  rw [if_pos hold]

/-- A numeric message with no stored session is a silent no-op. -/
theorem handle_selection_notFound (st : SStore) (now : Int) (cid msg : String)
    (hs : st cid = none) (hd : pyIsDigit msg = true) :
    handle_selection st now cid msg = ([], st) := by
  unfold handle_selection
  rw [hd, hs]
  simp

/-! ### The URL patterns of `handle_url_parse` (main.py lines 283-303)

The four patterns use only a small regex dialect: literal text (with
escaped `.` and `?`), the lazy gap `.*?`, greedy character-class plus
(`\d+`, `[a-zA-Z0-9]+`, captured or not), and a captured alternation of
literals.  Matching is embedded for exactly this dialect, with
`re.IGNORECASE` and `re.search` (leftmost position, left alternative
first) semantics. -/

/-- One token of a pattern alternative. In every pattern of the table a
class-plus token is last or followed by a literal starting outside the
class, so greedy maximal munch needs no backtracking. -/
inductive Tok where
  | lit (p : List Char)
  | litAltCap (opts : List (List Char))
  | lazyAny
  | plusNC (cls : Char → Bool)
  | plusCap (cls : Char → Bool)

/-- Case-insensitive literal strip (`re.IGNORECASE`). -/
def stripLitCI : List Char → List Char → Option (List Char)
  | [], s => some s
  | _ :: _, [] => none
  | p :: ps, c :: cs => if p.toLower = c.toLower then stripLitCI ps cs else none

/-- Match a token sequence at the start of `s`, returning the captured
groups in order. `fuel` bounds the recursion depth; every call consumes a
token or a character, so `toks.length + s.length + 1` always suffices.
`lazyAny` (`.*?`) first tries the remaining tokens here and only then
consumes one non-newline character (non-greedy; `.` excludes `\n`). -/
def matchToks : Nat → List Tok → List Char → Option (List (List Char))
  | 0, _, _ => none
  | _ + 1, [], _ => some []
  | fuel + 1, t :: rest, s =>
    match t with
    | .lit p =>
      match stripLitCI p s with
      | some s2 => matchToks fuel rest s2
      | none => none
    | .litAltCap opts =>
      opts.findSome? fun o =>
        match stripLitCI o s with
        | some s2 => (matchToks fuel rest s2).map fun gs => s.take o.length :: gs
        | none => none
    | .lazyAny =>
      match matchToks fuel rest s with
      | some gs => some gs
      | none =>
        match s with
        | [] => none
        | c :: cs => if c = '\n' then none else matchToks fuel (t :: rest) cs
    | .plusNC cls =>
      let run := s.takeWhile cls
      if run.length = 0 then none else matchToks fuel rest (s.drop run.length)
    | .plusCap cls =>
      let run := s.takeWhile cls
      if run.length = 0 then none
      else (matchToks fuel rest (s.drop run.length)).map fun gs => run :: gs

/-- One `|`-alternative of a pattern: its tokens plus how many capturing
groups of the whole pattern sit before and after its own, so the overall
`match.groups()` tuple can be reconstructed. -/
structure Alt where
  pre : Nat
  toks : List Tok
  post : Nat

/-- The `match.groups()` tuple when alternative `a` matched with its own
captures `gs`: unentered groups are `None`. -/
def padGroups (a : Alt) (gs : List (List Char)) : List (Option String) :=
  List.replicate a.pre none ++ gs.map (fun l => some (String.mk l)) ++
    List.replicate a.post none

/-- Try the alternatives of one pattern at one start position, leftmost
alternative first. -/
def searchAt (alts : List Alt) (s : List Char) : Option (List (Option String)) :=
  alts.findSome? fun a =>
    (matchToks (a.toks.length + s.length + 1) a.toks s).map (padGroups a)

/-- `re.search`: try every start position left to right. -/
def reSearch (alts : List Alt) : List Char → Option (List (Option String))
  | [] => searchAt alts []
  | c :: cs =>
    match searchAt alts (c :: cs) with
    | some gs => some gs
    | none => reSearch alts cs

/-- `music\.163\.com/.*?song\?id=(\d+)` -/
def neteaseAlts : List Alt :=
  [⟨0, [.lit "music.163.com/".data, .lazyAny, .lit "song?id=".data, .plusCap Char.isDigit], 0⟩]

/-- `(y\.qq\.com|i\.y\.qq\.com)/.*?songDetail/([a-zA-Z0-9]+)|y\.qq\.com.*?songid=(\d+)` -/
def tencentAlts : List Alt :=
  [⟨0, [.litAltCap ["y.qq.com".data, "i.y.qq.com".data], .lit "/".data, .lazyAny,
        .lit "songDetail/".data, .plusCap Char.isAlphanum], 1⟩,
   ⟨2, [.lit "y.qq.com".data, .lazyAny, .lit "songid=".data, .plusCap Char.isDigit], 0⟩]

/-- `kugou\.com/.*?hash=([a-zA-Z0-9]+)|t\d+\.kugou\.com/.*?id=([a-zA-Z0-9]+)` -/
def kugouAlts : List Alt :=
  [⟨0, [.lit "kugou.com/".data, .lazyAny, .lit "hash=".data, .plusCap Char.isAlphanum], 1⟩,
   ⟨1, [.lit "t".data, .plusNC Char.isDigit, .lit ".kugou.com/".data, .lazyAny,
        .lit "id=".data, .plusCap Char.isAlphanum], 0⟩]

/-- `kuwo\.cn/.*?play_detail/(\d+)` -/
def kuwoAlts : List Alt :=
  [⟨0, [.lit "kuwo.cn/".data, .lazyAny, .lit "play_detail/".data, .plusCap Char.isDigit], 0⟩]

/-- The `patterns` dict of `handle_url_parse` (lines 284-289), in its
insertion order. -/
def patternTable : List (String × List Alt) :=
  [("netease", neteaseAlts), ("tencent", tencentAlts),
   ("kugou", kugouAlts), ("kuwo", kuwoAlts)]

/-- `[g for g in match.groups() if g][0]` (line 294): the first group that
is neither `None` nor empty; `none` models the `IndexError` when no group
qualifies (unreachable for this table: every alternative has a non-empty
capture). -/
def firstTruthyGroup (gs : List (Option String)) : Option String :=
  gs.findSome? fun g =>
    match g with
    | some s => if s = "" then none else some s
    | none => none

/-- The recognition loop of `handle_url_parse` (lines 290-294): sources in
table order, first whose pattern matches wins, paired with the extracted
song id. -/
def recognize (msg : String) : Option (String × Option String) :=
  patternTable.findSome? fun p =>
    (reSearch p.2 msg.data).map fun gs => (p.1, firstTruthyGroup gs)

/-- Outcome of one `handle_url_parse` call. `skipped`: the auto-parse
switch is off or no pattern matched — the handler yields nothing and
returns. `nameError`: a pattern matched, and building the notice f-string
at line 295 evaluates the bare name `source_name`, which is not a module
global (it exists only as a method of the class, and the class body is
not in the name-resolution chain of a method), so a `NameError` escapes
the handler before anything is yielded. -/
inductive UrlParseOutcome where
  | skipped
  | nameError (source : String) (songId : Option String)
deriving DecidableEq

/-- `MetingPlugin.handle_url_parse` (lines 278-303) on the stripped
message text, for a given `auto_parse_url` config value. -/
def handle_url_parse (auto_parse_url : Bool) (msg : String) : UrlParseOutcome :=
  if ¬auto_parse_url then .skipped
  else
    match recognize msg with
    | none => .skipped
    | some (src, id) => .nameError src id

/-! ### Concrete fixtures for witnesses and counterexamples -/

def songA : Song := { title := some "A", author := some "alice", url := some "https://example.com/a.mp3" }

def songB : Song := { title := some "B", author := some "bob", url := some "https://example.com/b.mp3" }

def songC : Song := { title := some "C", author := some "carol", url := some "https://example.com/c.mp3" }

/-- A session map holding one two-result session for `"chat1"` stamped at
time 0. -/
def st0 : SStore := fun k => if k = "chat1" then some ⟨[songA, songB], 0⟩ else none

def emptyStore : SStore := fun _ => none

/-! ### Claims -/

/-- C1: for a conversation with a stored session whose age is within the
expiry window, a numeric selection whose 1-based index is within
`[1, len(results)]` deletes the session before playback begins and hands
exactly the record at that index to playback; afterwards no session
exists for that conversation id. -/
theorem c1_selection_single_use (st : SStore) (now : Int) (cid msg : String)
    (sd : SessionData) (n : Nat)
    (hs : st cid = some sd) (hfresh : now - sd.timestamp ≤ SESSION_EXPIRY)
    (hd : pyIsDigit msg = true) (hv : strToNat msg = n)
    (h1 : 1 ≤ n) (h2 : n ≤ sd.results.length) :
    ∃ song, sd.results.get? (n - 1) = some song ∧
      handle_selection st now cid msg =
        ([Ev.deleteSession cid, Ev.playback song], delStore st cid) ∧
      (handle_selection st now cid msg).2 cid = none := by
  obtain ⟨song, hget, heq⟩ := handle_selection_in_range st now cid msg sd n hs hd hv hfresh h1 h2
  exact ⟨song, hget, heq, by rw [heq]; exact delStore_self st cid⟩

theorem c1_witness :
    ∃ song, [songA, songB].get? 1 = some song ∧
      handle_selection st0 30 "chat1" "2" =
        ([Ev.deleteSession "chat1", Ev.playback song], delStore st0 "chat1") ∧
      (handle_selection st0 30 "chat1" "2").2 "chat1" = none :=
  c1_selection_single_use st0 30 "chat1" "2" ⟨[songA, songB], 0⟩ 2
    rfl (by decide) (by decide) rfl (by decide) (by decide)

/-- C2 counterexample: a stored, non-expired session and the out-of-range
numeric selection `"5"` (only 2 results). The handler's action trace is
empty — nothing at all is yielded to the user, so no OutOfRange signal
exists — although the session does stay intact and retrievable. -/
theorem c2_counterexample :
    st0 "chat1" = some ⟨[songA, songB], 0⟩ ∧
    (30 : Int) - 0 ≤ SESSION_EXPIRY ∧
    pyIsDigit "5" = true ∧ 2 < strToNat "5" ∧
    (handle_selection st0 30 "chat1" "5").1 = [] ∧
    (handle_selection st0 30 "chat1" "5").2 "chat1" = some ⟨[songA, songB], 0⟩ :=
  ⟨rfl, by decide, by decide, by decide, by decide, rfl⟩

/-- C2 (amended): for every stored, non-expired session, a numeric
selection whose index is outside `[0, len(results))` is a SILENT no-op:
the handler yields no message (in particular no OutOfRange notice) and
leaves the session map unchanged, the session still retrievable, so the
same conversation can retry with a corrected number before expiry. -/
theorem c2_out_of_range_silent (st : SStore) (now : Int) (cid msg : String)
    (sd : SessionData) (hs : st cid = some sd) (hd : pyIsDigit msg = true)
    (hfresh : now - sd.timestamp ≤ SESSION_EXPIRY)
    (hout : ¬(1 ≤ strToNat msg ∧ strToNat msg ≤ sd.results.length)) :
    handle_selection st now cid msg = ([], st) ∧
    (handle_selection st now cid msg).2 cid = some sd := by
  have h := handle_selection_out_of_range st now cid msg sd hs hd hfresh hout
  exact ⟨h, by rw [h]; exact hs⟩

theorem c2_witness :
    handle_selection st0 30 "chat1" "5" = ([], st0) ∧
    (handle_selection st0 30 "chat1" "5").2 "chat1" = some ⟨[songA, songB], 0⟩ :=
  c2_out_of_range_silent st0 30 "chat1" "5" ⟨[songA, songB], 0⟩
    rfl (by decide) (by decide) (by decide)

/-- C3: a numeric selection against a session older than the expiry
window deletes the session and yields the Expired notice, whatever the
supplied index; a numeric message for a conversation with no stored
session is a silent no-op (nothing is yielded, nothing changes). -/
theorem c3_expired_and_not_found :
    (∀ (st : SStore) (now : Int) (cid msg : String) (sd : SessionData),
        pyIsDigit msg = true → st cid = some sd →
        now - sd.timestamp > SESSION_EXPIRY →
        handle_selection st now cid msg =
          ([Ev.deleteSession cid, Ev.notice expiredNotice], delStore st cid) ∧
        (handle_selection st now cid msg).2 cid = none) ∧
    (∀ (st : SStore) (now : Int) (cid msg : String),
        pyIsDigit msg = true → st cid = none →
        handle_selection st now cid msg = ([], st)) := by
  constructor
  · intro st now cid msg sd hd hs hold
    have h := handle_selection_expired st now cid msg sd hs hd hold
    exact ⟨h, by rw [h]; exact delStore_self st cid⟩
  · intro st now cid msg hd hs
    exact handle_selection_notFound st now cid msg hs hd

theorem c3_witness :
    (handle_selection st0 100 "chat1" "2" =
        ([Ev.deleteSession "chat1", Ev.notice expiredNotice], delStore st0 "chat1") ∧
      (handle_selection st0 100 "chat1" "2").2 "chat1" = none) ∧
    handle_selection st0 30 "chat2" "7" = ([], st0) :=
  ⟨c3_expired_and_not_found.1 st0 100 "chat1" "2" ⟨[songA, songB], 0⟩
      (by decide) rfl (by decide),
   c3_expired_and_not_found.2 st0 30 "chat2" "7" (by decide) rfl⟩

/-- C4 counterexample: with `max_file_size = 1` (1 MiB cap) and a
response declaring `Content-Length: 1` — which passes the guard — whose
stream then delivers 129 chunks of 8192 bytes, `_download_song` writes
1056768 bytes (> 1048576) to the temp file: the size check uses only the
declared header, and the streaming loop never counts bytes, so a body
exceeding its declared length defeats the cap. -/
theorem c4_counterexample :
    (validate_url "https://example.com/a.mp3").1 = true ∧
    (download_song 1 "https://example.com/a.mp3"
        (some ⟨200, some 1, "", List.replicate 129 (some 8192)⟩)).bytesWritten = 1056768 ∧
    1 * 1024 * 1024 < 1056768 :=
  ⟨by decide, by decide, by decide⟩

/-- C4 (amended): a response whose declared Content-Length is zero,
unknown, or greater than `maxBytes` is rejected before any temp file is
created and before any body byte is persisted; and once a response is
accepted, at most `maxBytes` reach the temp file PROVIDED the bytes the
stream actually delivers do not exceed the declared Content-Length (the
loop itself never counts bytes). -/
theorem c4_size_guard :
    (∀ (m : Nat) (url : String) (r : HttpResponse),
        r.contentLength.getD 0 = 0 ∨ r.contentLength.getD 0 > m * 1024 * 1024 →
        (download_song m url (some r)).fileCreated = false ∧
        (download_song m url (some r)).bytesWritten = 0 ∧
        (download_song m url (some r)).success = false) ∧
    (∀ (m : Nat) (url : String) (r : HttpResponse) (L : Nat),
        r.contentLength = some L → L ≤ m * 1024 * 1024 → chunkSum r.body ≤ L →
        (download_song m url (some r)).bytesWritten ≤ m * 1024 * 1024) := by
  constructor
  · intro m url r hbad
    unfold download_song
    by_cases hv : (validate_url url).1
    · simp only [hv, not_true_eq_false, if_false]
      by_cases hst : r.status ≠ 200
      · rw [if_pos hst]; exact ⟨rfl, rfl, rfl⟩
      · rw [if_neg hst]
        rw [if_pos (by omega)]
        exact ⟨rfl, rfl, rfl⟩
    · simp only [hv, not_false_eq_true, if_true]
      exact ⟨rfl, rfl, rfl⟩
  · intro m url r L hL hcap hbody
    unfold download_song
    by_cases hv : (validate_url url).1
    · simp only [hv, not_true_eq_false, if_false]
      by_cases hst : r.status ≠ 200
      · rw [if_pos hst]; exact Nat.zero_le _
      · rw [if_neg hst]
        by_cases hlen : r.contentLength.getD 0 > m * 1024 * 1024 ∨ r.contentLength.getD 0 = 0
        · rw [if_pos (by tauto)]; exact Nat.zero_le _
        · rw [if_neg (by tauto)]
          have h1 : (writeChunks r.body).1 ≤ chunkSum r.body := writeChunks_le_chunkSum r.body
          simp only
          omega
    · simp only [hv, not_false_eq_true, if_true]
      exact Nat.zero_le _

theorem c4_witness :
    ((download_song 50 "https://example.com/a.mp3"
        (some ⟨200, none, "", [some 5]⟩)).fileCreated = false ∧
      (download_song 50 "https://example.com/a.mp3"
        (some ⟨200, none, "", [some 5]⟩)).bytesWritten = 0 ∧
      (download_song 50 "https://example.com/a.mp3"
        (some ⟨200, none, "", [some 5]⟩)).success = false) ∧
    (download_song 50 "https://example.com/a.mp3"
        (some ⟨200, some 10, "", [some 5, some 5]⟩)).bytesWritten ≤ 50 * 1024 * 1024 :=
  ⟨c4_size_guard.1 50 "https://example.com/a.mp3" ⟨200, none, "", [some 5]⟩ (by decide),
   c4_size_guard.2 50 "https://example.com/a.mp3" ⟨200, some 10, "", [some 5, some 5]⟩ 10
     rfl (by decide) (by decide)⟩

/-- C5 counterexample: a fetch that passes every guard, creates the temp
file, writes 5 bytes and then hits a mid-stream transport error returns
Failure with the partially written file still on disk: `fileCreated` is
`true` and no code path of `_download_song` removes the file
(`fileDeleted` is `false`). -/
theorem c5_counterexample :
    download_song 50 "https://example.com/a.mp3"
        (some ⟨200, some 1000, "audio/mpeg", [some 5, none]⟩) =
      ⟨false, true, true, ".mp3", 5, false⟩ :=
  by decide

/-- C5 (amended): when the fetch fails after the temporary file has been
created (an I/O, network or timeout error while streaming the body), the
operation returns Failure but does NOT delete the partially written
file — `_download_song` has no removal on any error path; orphaned temp
files are only swept by the prefix-based cleanup at plugin termination. -/
theorem c5_partial_file_left (m : Nat) (url : String) (r : HttpResponse)
    (hv : (validate_url url).1 = true) (hst : r.status = 200)
    (hlen1 : r.contentLength.getD 0 ≠ 0)
    (hlen2 : r.contentLength.getD 0 ≤ m * 1024 * 1024)
    (herr : (writeChunks r.body).2 = false) :
    (download_song m url (some r)).success = false ∧
    (download_song m url (some r)).fileCreated = true ∧
    (download_song m url (some r)).fileDeleted = false := by
  unfold download_song
  simp only [hv, not_true_eq_false, if_false]
  rw [if_neg (by omega)]
  rw [if_neg (by omega)]
  exact ⟨herr, rfl, rfl⟩

theorem c5_witness :
    (download_song 50 "https://example.com/a.mp3"
        (some ⟨200, some 1000, "audio/mpeg", [some 5, none]⟩)).success = false ∧
    (download_song 50 "https://example.com/a.mp3"
        (some ⟨200, some 1000, "audio/mpeg", [some 5, none]⟩)).fileCreated = true ∧
    (download_song 50 "https://example.com/a.mp3"
        (some ⟨200, some 1000, "audio/mpeg", [some 5, none]⟩)).fileDeleted = false :=
  c5_partial_file_left 50 "https://example.com/a.mp3"
    ⟨200, some 1000, "audio/mpeg", [some 5, none]⟩
    (by decide) rfl (by decide) (by decide) (by decide)

/-- C6 counterexample: `https://example.com/track10.mp3` has an https
scheme and the clean host `example.com`, which is on no denylist entry,
yet the validator rejects it — the denylist literals are matched as
substrings of the WHOLE url (`b in url`), and the path segment
`track10.mp3` contains `10.`. So the validator does not accept every
http/https URL whose host is off the denylist. -/
theorem c6_counterexample :
    strStartsWith "https://example.com/track10.mp3" "https://" = true ∧
    spec_urlHost "https://example.com/track10.mp3" = "example.com" ∧
    spec_hostOnDenylist "example.com" = false ∧
    (validate_url "https://example.com/track10.mp3").1 = false :=
  ⟨by decide, by decide, by decide, by decide⟩

/-- C6 (amended): the validator is a pure predicate accepting exactly the
URLs that have an `http://`/`https://` scheme and contain none of the
denylist literals `127.0.0.1`, `localhost`, `192.168.`, `10.`, `172.` as
a substring ANYWHERE in the URL (not merely in the host); in particular
it rejects `http://127.0.0.1/x` and `http://192.168.1.5/a.mp3` and
accepts `https://example.com/song.mp3`, but it can also reject URLs whose
host is clean when a denylist literal occurs in the path or query. -/
theorem c6_validator :
    (∀ u : String, (validate_url u).1 = true ↔
        ((strStartsWith u "http://" = true ∨ strStartsWith u "https://" = true) ∧
         black_list.any (fun b => strContains u b) = false)) ∧
    (validate_url "http://127.0.0.1/x").1 = false ∧
    (validate_url "http://192.168.1.5/a.mp3").1 = false ∧
    (validate_url "https://example.com/song.mp3").1 = true := by
  refine ⟨?_, by decide, by decide, by decide⟩
  intro u
  by_cases hu : u = ""
  · subst hu; decide
  · unfold validate_url
    constructor
    · intro hval
      by_cases h1 : u = "" ∨ ¬(strStartsWith u "http://" = true ∨ strStartsWith u "https://" = true)
      · rw [if_pos h1] at hval
        exact absurd hval (by decide)
      · rw [if_neg h1] at hval
        by_cases h2 : black_list.any (fun b => strContains u b) = true
        · rw [if_pos h2] at hval
          exact absurd hval (by decide)
        · rw [if_neg h2] at hval
          push_neg at h1
          exact ⟨h1.2, Bool.eq_false_iff.mpr h2⟩
    · rintro ⟨hAB, hany⟩
      rw [if_neg (by push_neg; exact ⟨hu, hAB⟩), if_neg (by simp [hany])]

theorem c6_witness :
    (validate_url "https://example.com/song.mp3").1 = true ↔
      ((strStartsWith "https://example.com/song.mp3" "http://" = true ∨
        strStartsWith "https://example.com/song.mp3" "https://" = true) ∧
       black_list.any (fun b => strContains "https://example.com/song.mp3" b) = false) :=
  c6_validator.1 "https://example.com/song.mp3"

/-- C7: the link recognizer tries the per-source patterns in the fixed
table order netease, tencent, kugou, kuwo and commits to the first source
whose pattern matches, extracting the first non-empty capturing group as
the song id; on `https://music.163.com/#/song?id=12345` it yields
`(netease, "12345")`, and when no pattern matches it yields nothing and
the handler does nothing. -/
theorem c7_link_recognizer :
    recognize "https://music.163.com/#/song?id=12345" = some ("netease", some "12345") ∧
    (∀ (msg : String) (gs : List (Option String)),
        reSearch neteaseAlts msg.data = some gs →
        recognize msg = some ("netease", firstTruthyGroup gs)) ∧
    (∀ msg : String, (∀ p ∈ patternTable, reSearch p.2 msg.data = none) →
        recognize msg = none ∧ handle_url_parse true msg = .skipped) := by
  refine ⟨by decide, ?_, ?_⟩
  · intro msg gs h
    simp [recognize, patternTable, List.findSome?_cons, h]
  · intro msg h
    have hrec : recognize msg = none := by
      simp only [recognize, patternTable]
      rw [List.findSome?_cons, List.findSome?_cons, List.findSome?_cons, List.findSome?_cons]
      rw [h ("netease", neteaseAlts) (by simp [patternTable]),
          h ("tencent", tencentAlts) (by simp [patternTable]),
          h ("kugou", kugouAlts) (by simp [patternTable]),
          h ("kuwo", kuwoAlts) (by simp [patternTable])]
      rfl
    refine ⟨hrec, ?_⟩
    unfold handle_url_parse
    rw [hrec]
    rfl

theorem c7_witness :
    recognize "no links here" = none ∧ handle_url_parse true "no links here" = .skipped :=
  c7_link_recognizer.2.2 "no links here" (by decide)

/-- C8: a message that matches a source URL pattern makes
`handle_url_parse` evaluate the bare name `source_name` while building
the first notice (line 295); the module scope has no such name (it exists
only as a method of the class), so a NameError escapes the handler before
anything is yielded — contradicting the claim that no failure propagates
out of the URL-autodetect handler. -/
theorem c8_url_handler_name_error :
    handle_url_parse true "https://music.163.com/#/song?id=12345" =
      UrlParseOutcome.nameError "netease" (some "12345") :=
  by decide

/-- C9: in manual selection mode a successful search stores the FULL
result list in the session while the numbered list shown to the user has
exactly `search_result_count` entries; hence a numeric selection whose
index lies past the displayed count but within the full list still
succeeds and delivers that record. -/
theorem c9_full_list_stored (st : SStore) (cid : String) (results : List Song)
    (now now2 : Int) (max_show : Nat) (msg : String) (n : Nat)
    (hlong : max_show < results.length)
    (hd : pyIsDigit msg = true) (hv : strToNat msg = n)
    (hpast : max_show < n) (hle : n ≤ results.length)
    (hfresh : now2 - now ≤ SESSION_EXPIRY) :
    (displayLines results max_show).length = max_show ∧
    storeSession st cid results now cid = some ⟨results, now⟩ ∧
    ∃ song, results.get? (n - 1) = some song ∧
      handle_selection (storeSession st cid results now) now2 cid msg =
        ([Ev.deleteSession cid, Ev.playback song],
         delStore (storeSession st cid results now) cid) := by
  refine ⟨?_, by simp [storeSession], ?_⟩
  · simp only [displayLines, List.length_map, List.enum_length, List.length_take]
    omega
  · exact handle_selection_in_range (storeSession st cid results now) now2 cid msg
      ⟨results, now⟩ n (by simp [storeSession]) hd hv (by simpa using hfresh)
      (by omega) hle

theorem c9_witness :
    (displayLines [songA, songB, songC] 2).length = 2 ∧
    storeSession emptyStore "chat9" [songA, songB, songC] 0 "chat9" =
      some ⟨[songA, songB, songC], 0⟩ ∧
    ∃ song, [songA, songB, songC].get? 2 = some song ∧
      handle_selection (storeSession emptyStore "chat9" [songA, songB, songC] 0) 10 "chat9" "3" =
        ([Ev.deleteSession "chat9", Ev.playback song],
         delStore (storeSession emptyStore "chat9" [songA, songB, songC] 0) "chat9") :=
  c9_full_list_stored emptyStore "chat9" [songA, songB, songC] 0 10 2 "3" 3
    (by decide) (by decide) rfl (by decide) (by decide) (by decide)

/-- C10: `_download_song` re-runs the URL validator on its own input and,
when validation fails, returns Failure having issued no network request,
created no file and written no byte — the fetch branch is unreachable for
any URL the validator rejects, even if a caller skips validation. -/
theorem c10_validate_inside_download (m : Nat) (url : String) (resp : Option HttpResponse)
    (hv : (validate_url url).1 = false) :
    download_song m url resp = ⟨false, false, false, "", 0, false⟩ := by
  unfold download_song
  simp [hv]

theorem c10_witness :
    download_song 50 "http://127.0.0.1/x" (some ⟨200, some 10, "", [some 5]⟩) =
      ⟨false, false, false, "", 0, false⟩ :=
  c10_validate_inside_download 50 "http://127.0.0.1/x"
    (some ⟨200, some 10, "", [some 5]⟩) (by decide)

end Meting
